import Mathlib

/-!
Verification of the ldm automount daemon (src/ldm.c) against its
natural-language specification.

The C program is shallowly embedded: every external effect (libmount table
lookups, stat, mount/umount, chown, the hook spawner) is represented either
as data passed in an environment or as an explicit action trace, and the
global device registry `g_devices[MAX_DEVICES]` is threaded through every
operation as an explicit value.  All definitions below are translated from
src/ldm.c; line references are given in the doc comments.
-/

/-- MAX_DEVICES from ldm.c:49: capacity of the `g_devices` array. -/
def MAX_DEVICES : Nat := 20

/-- PATH_MAX on the reference system (limits.h), size of the `tmp` buffer in
`device_create_mountpoint` (ldm.c:256). -/
def PATH_MAX : Nat := 4096

/-- MOUNT_PATH from ldm.c:46: base directory for generated mountpoints. -/
def MOUNT_PATH : String := "/mnt/"

/-- One entry of a libmount table (`struct libmnt_fs`): a source specifier,
a target path and the option list.  The program queries entries by exact
source string and by option membership only. -/
structure MntFS where
  source : String
  target : String
  options : List String
deriving DecidableEq

/-- The slice of a `struct udev_device` that ldm.c reads: the /dev node, the
symlink aliases, the devtype, and the `ID_*` properties.  `usage` models
presence of `ID_FS_USAGE`, `cdromMedia` presence of `ID_CDROM_MEDIA`. -/
structure UdevDevice where
  devnode : String
  devlinks : List String
  devtype : String
  idType : Option String
  fsType : Option String
  fsUuid : Option String
  fsLabel : Option String
  serial : Option String
  usage : Bool
  cdromMedia : Bool
deriving DecidableEq

/-- The DEVICE_VOLUME / DEVICE_CD / DEVICE_UNK enum of ldm.c:19-23. -/
inductive DType where
  | volume
  | cd
  | unk
deriving DecidableEq

/-- `struct device_t` (ldm.c:33-39).  The udev handle is kept on the record;
`filesystem` and `mountpoint` are non-null for every constructed record
because `device_new` rejects devices before they could be null. -/
structure Device where
  type : DType
  filesystem : String
  devnode : String
  mountpoint : String
  udev : UdevDevice
deriving DecidableEq

/-- The `g_devices` array: MAX_DEVICES slots, each empty or holding a record. -/
abbrev Registry := List (Option Device)

/-- Externally observable side effects of the lifecycle operations, in
program order: mkdir/rmdir of the mountpoint, the two Mount Executor calls,
chown, and the hook spawner invocations. -/
inductive Act where
  | mkdirAct (path : String)
  | rmdirAct (path : String)
  | mountExec (source target fstype opts : String) (readonly : Bool)
  | umountExec (target : String)
  | chownAct (path : String)
  | spawn (action : String) (mountpoint : String)
deriving DecidableEq

/-- The environment an operation runs in: the two table snapshots (`g_fstab`,
`g_mtab`), the filesystem-existence oracle consulted by `stat`, the outcomes
of the mount/umount/chown system operations, and the configured uid/gid. -/
structure Env where
  fstab : List MntFS
  mtab : List MntFS
  statExists : String → Bool
  mountResult : Bool
  umountResult : Bool
  chownResult : Bool
  uid : Int
  gid : Int

/-- `mnt_table_find_source(tab, key, MNT_ITER_FORWARD)`: first entry whose
source equals the key exactly. -/
def mnt_table_find_source (tab : List MntFS) (key : String) : Option MntFS :=
  tab.find? (fun e => decide (e.source = key))

/-- Byte-wise prefix test, the `strncmp(s, p, strlen p) == 0` idiom. -/
def strIsPre : List Char → List Char → Bool
  | [], _ => true
  | _ :: _, [] => false
  | a :: as, b :: bs => a = b && strIsPre as bs

/-- The devlink walk of fstab_search (ldm.c:175-179): try every symlink in
order and stop at the first entry found. -/
def findSourceLinks (tab : List MntFS) : List String → Option MntFS
  | [] => none
  | l :: rest =>
    match mnt_table_find_source tab l with
    | some r => some r
    | none => findSourceLinks tab rest

/-- Step 1 of fstab_search (ldm.c:164-180): for a non device-mapper node
(`strncmp(devnode, "/dev/dm-", 8) != 0`) match the /dev node itself,
otherwise walk the symlink aliases. -/
def fstab_search_path (tab : List MntFS) (u : UdevDevice) : Option MntFS :=
  if strIsPre "/dev/dm-".data u.devnode.data then
    findSourceLinks tab u.devlinks
  else
    mnt_table_find_source tab u.devnode

/-- fstab_search (ldm.c:157-203).  Note the control flow of the source: after
the path step, a missing `ID_FS_UUID` returns NULL immediately (ldm.c:184-185),
so the label is only ever consulted when a UUID is known but unmatched. -/
def fstab_search (tab : List MntFS) (u : UdevDevice) : Option MntFS :=
  match fstab_search_path tab u with
  | some r => some r
  | none =>
    match u.fsUuid with
    | none => none
    | some uuid =>
      match mnt_table_find_source tab ("UUID=" ++ uuid) with
      | some r => some r
      | none =>
        match u.fsLabel with
        | none => none
        | some lab => mnt_table_find_source tab ("LABEL=" ++ lab)

/-- `mnt_fs_match_options(fs, pattern)` as used by the program: the only
pattern passed is "+noauto", a mandatory-presence pattern, so the model
covers the `+name` form (and bare names) by option-list membership. -/
def mnt_fs_match_options (fs : MntFS) (pat : String) : Bool :=
  match pat.data with
  | '+' :: rest => decide (String.mk rest ∈ fs.options)
  | _ => decide (pat ∈ fs.options)

/-- fstab_has_option (ldm.c:205-215). -/
def fstab_has_option (tab : List MntFS) (u : UdevDevice) (opt : String) : Bool :=
  match fstab_search tab u with
  | none => false
  | some fs => mnt_fs_match_options fs opt

/-- device_is_mounted (ldm.c:361-366): a device is mounted iff fstab_search
resolves it against the live mtab snapshot. -/
def device_is_mounted (mtab : List MntFS) (u : UdevDevice) : Bool :=
  (fstab_search mtab u).isSome

/-- device_has_media (ldm.c:217-230), keyed on the already-classified type. -/
def device_has_media (ty : DType) (u : UdevDevice) : Bool :=
  match ty with
  | .volume => u.usage
  | .cd => u.cdromMedia
  | .unk => false

/-- A quirk bit set (the QUIRK_* flags of ldm.c:25-31). -/
structure Quirks where
  ownerFix : Bool
  utf8Flag : Bool
  mask : Bool
  flush : Bool
deriving DecidableEq

/-- The compiled-in quirk table of filesystem_quirks (ldm.c:236-244). -/
def fs_table : List (String × Quirks) :=
  [ ("msdos",   ⟨true, true, false, false⟩),
    ("umsdos",  ⟨true, true, false, false⟩),
    ("vfat",    ⟨true, true, true, true⟩),
    ("exfat",   ⟨true, false, false, false⟩),
    ("ntfs",    ⟨true, true, false, false⟩),
    ("iso9660", ⟨true, true, false, false⟩),
    ("udf",     ⟨true, false, false, false⟩) ]

/-- filesystem_quirks (ldm.c:232-251): exact-match lookup, no quirks for
unknown filesystem types. -/
def filesystem_quirks (fs : String) : Quirks :=
  match fs_table.find? (fun e => decide (e.1 = fs)) with
  | some e => e.2
  | none => ⟨false, false, false, false⟩

/-- The mount-option string assembled in device_mount (ldm.c:462-481), in
source order: uid/gid pair, utf8, flush, dmask/fmask, each comma-terminated. -/
def mount_opts (uid gid : Int) (q : Quirks) : String :=
  (if q.ownerFix then "uid=" ++ toString uid ++ ",gid=" ++ toString gid ++ "," else "")
  ++ (if q.utf8Flag then "utf8," else "")
  ++ (if q.flush then "flush," else "")
  ++ (if q.mask then "dmask=000,fmask=111," else "")

/-- Replacement of every space by an underscore (ldm.c:274-278). -/
def sanitizeChar (c : Char) : Char :=
  if c = ' ' then '_' else c

/-- Apply the space replacement to a whole string. -/
def sanitize (s : String) : String :=
  String.mk (s.data.map sanitizeChar)

/-- `snprintf` truncation to the given number of characters: the candidate
buffer is `char tmp[PATH_MAX]`, so at most PATH_MAX - 1 characters are kept. -/
def trunc (s : String) (n : Nat) : String :=
  String.mk (s.data.take n)

/-- The collision loop of device_create_mountpoint (ldm.c:280-287): while
stat succeeds (the path exists), fail if the candidate already has length
PATH_MAX - 2, otherwise append a trailing underscore and retry.  The loop of
the source is an unbounded while; fuel PATH_MAX is enough to run it to
completion for every candidate of length at most PATH_MAX - 2 (the only
candidates on which the C loop is well defined). -/
def mpLoop (ex : String → Bool) : Nat → String → Option String
  | 0, _ => none
  | fuel + 1, tmp =>
    if ex tmp then
      if tmp.length = PATH_MAX - 2 then none
      else mpLoop ex fuel (tmp ++ "_")
    else some tmp

/-- The name-source chain of device_create_mountpoint (ldm.c:261-272): the
first present of ID_FS_LABEL, ID_FS_UUID, ID_SERIAL wins, none present
fails. -/
def namer_choice (u : UdevDevice) : Option String :=
  match u.fsLabel with
  | some l => some l
  | none =>
    match u.fsUuid with
    | some i => some i
    | none => u.serial

/-- device_create_mountpoint (ldm.c:253-290): pick the first present of
label, UUID, serial; build MOUNT_PATH + name (snprintf truncates to
PATH_MAX - 1 characters); replace spaces; then run the collision loop. -/
def device_create_mountpoint (ex : String → Bool) (u : UdevDevice) : Option String :=
  match namer_choice u with
  | none => none
  | some name => mpLoop ex PATH_MAX (sanitize (trunc (MOUNT_PATH ++ name) (PATH_MAX - 1)))

/-- Insertion into the first free slot of the array, the loop of
device_register (ldm.c:309-314); `none` when every slot is taken. -/
def insertFirstFree : Registry → Device → Option Registry
  | [], _ => none
  | none :: rest, d => some (some d :: rest)
  | some x :: rest, d => (insertFirstFree rest d).map (fun r => some x :: r)

/-- device_register (ldm.c:304-317): store the record in the first free
slot and report success; report failure, with no mutation, when full.  The
source performs no duplicate-key check of any kind. -/
def device_register (reg : Registry) (d : Device) : Bool × Registry :=
  match insertFirstFree reg d with
  | some reg2 => (true, reg2)
  | none => (false, reg)

/-- The scan of device_search (ldm.c:343-359) returning the slot index as
well: first slot whose record matches the key by devnode or by mountpoint. -/
def dsearch : Registry → String → Option (Nat × Device)
  | [], _ => none
  | none :: rest, p => (dsearch rest p).map (fun jd => (jd.1 + 1, jd.2))
  | some d :: rest, p =>
    if d.devnode = p ∨ d.mountpoint = p then some (0, d)
    else (dsearch rest p).map (fun jd => (jd.1 + 1, jd.2))

/-- device_search (ldm.c:343-359): lookup by devnode or mountpoint. -/
def device_search (reg : Registry) (p : String) : Option Device :=
  (dsearch reg p).map (fun jd => jd.2)

/-- The kind classification of device_new (ldm.c:395-414): the type starts
as DEVICE_UNK, becomes DEVICE_VOLUME for devtype partition/disk or ID_TYPE
floppy, and DEVICE_CD for ID_TYPE cd overrides that, so a cd wins. -/
def classifyType (dev : UdevDevice) : DType :=
  if dev.idType = some "cd" then DType.cd
  else
    if dev.devtype = "partition" ∨ dev.devtype = "disk" ∨ dev.idType = some "floppy"
    then DType.volume else DType.unk

/-- The mountpoint chosen by device_new (ldm.c:428-430): the fstab entry's
target verbatim when the device resolves in the fstab snapshot, otherwise
the Namer's pick. -/
def device_mp (env : Env) (dev : UdevDevice) : Option String :=
  match fstab_search env.fstab dev with
  | some e => some e.target
  | none => device_create_mountpoint env.statExists dev

/-- device_new (ldm.c:368-444).  Rejection order as in the source: noauto
override, allocation (not modelled: calloc assumed to succeed), the
filesystem blacklist, kind classification, media presence, mountpoint
derivation, registration.  Every rejection frees the partial record via
device_destroy, which cannot touch the registry because the fresh record is
not yet registered, so every failure path returns the registry unchanged. -/
def device_new (env : Env) (dev : UdevDevice) (reg : Registry) : Option Device × Registry :=
  if fstab_has_option env.fstab dev "+noauto" then (none, reg)
  else
    match dev.fsType with
    | none => (none, reg)
    | some fs =>
      if fs = "swap" ∨ fs = "LVM2_member" ∨ fs = "crypto_LUKS" then (none, reg)
      else
        if classifyType dev = DType.unk then (none, reg)
        else
          if device_has_media (classifyType dev) dev = false then (none, reg)
          else
            match device_mp env dev with
            | none => (none, reg)
            | some mountpoint =>
              match device_register reg ⟨classifyType dev, fs, dev.devnode, mountpoint, dev⟩ with
              | (true, reg2) =>
                (some ⟨classifyType dev, fs, dev.devnode, mountpoint, dev⟩, reg2)
              | (false, _) => (none, reg)

/-- device_unmount (ldm.c:515-544): locate the record by devnode (absence
is a no-op returning 0); if the live table shows the device mounted, run the
executor's umount with the record's *devnode* as target (ldm.c:528) and
abort on failure; then rmdir the mountpoint, spawn the "unmount" hook, and
destroy the record (clearing its slot). -/
def device_unmount (env : Env) (dev : UdevDevice) (reg : Registry) :
    Bool × Registry × List Act :=
  match dsearch reg dev.devnode with
  | none => (false, reg, [])
  | some (j, d) =>
    if device_is_mounted env.mtab dev then
      if env.umountResult then
        (true, reg.set j none,
          [Act.umountExec d.devnode, Act.rmdirAct d.mountpoint,
           Act.spawn "unmount" d.mountpoint])
      else
        (false, reg, [Act.umountExec d.devnode])
    else
      (true, reg.set j none,
        [Act.rmdirAct d.mountpoint, Act.spawn "unmount" d.mountpoint])

/-- device_mount (ldm.c:446-513): create the record, mkdir the mountpoint,
assemble the quirk options, run the executor mount (read-only for optical
discs); on mount failure clean up via device_unmount; on success chown the
mountpoint when the filesystem lacks the OwnerFix quirk, cleaning up via
device_unmount if the chown fails; finally spawn the "mount" hook. -/
def device_mount (env : Env) (dev : UdevDevice) (reg : Registry) :
    Bool × Registry × List Act :=
  match device_new env dev reg with
  | (none, reg2) => (false, reg2, [])
  | (some d, reg2) =>
    let quirks := filesystem_quirks d.filesystem
    let opts := mount_opts env.uid env.gid quirks
    let pre := [Act.mkdirAct d.mountpoint,
                Act.mountExec d.devnode d.mountpoint d.filesystem opts
                  (decide (d.type = DType.cd))]
    if env.mountResult = false then
      match device_unmount env dev reg2 with
      | (_, reg3, acts) => (false, reg3, pre ++ acts)
    else
      if quirks.ownerFix = false then
        if env.chownResult = false then
          match device_unmount env dev reg2 with
          | (_, reg3, acts) =>
            (false, reg3, pre ++ [Act.chownAct d.mountpoint] ++ acts)
        else
          (true, reg2, pre ++ [Act.chownAct d.mountpoint,
                               Act.spawn "mount" d.mountpoint])
      else
        (true, reg2, pre ++ [Act.spawn "mount" d.mountpoint])

/-- device_change (ldm.c:546-563): if the devnode is registered and the live
table shows it mounted, unmount first (propagating failure); then mount. -/
def device_change (env : Env) (dev : UdevDevice) (reg : Registry) :
    Bool × Registry × List Act :=
  match device_search reg dev.devnode with
  | some _ =>
    if device_is_mounted env.mtab dev then
      match device_unmount env dev reg with
      | (ok, reg2, acts) =>
        if ok = false then (false, reg2, acts)
        else
          match device_mount env dev reg2 with
          | (ok2, reg3, acts2) => (ok2, reg3, acts ++ acts2)
    else
      device_mount env dev reg
  | none => device_mount env dev reg

/-- The trailing-slash strip of handle_ipc_event (ldm.c:573-575). -/
def strip_trailing_slash (msg : String) : String :=
  if msg.data.getLast? = some '/' then String.mk msg.data.dropLast else msg

/-- handle_ipc_event (ldm.c:565-584): only command byte 'R' is handled; the
trailing '/' is stripped from the message, the remainder after the command
byte is looked up by devnode or mountpoint, and a match is unmounted only
when additionally the live table shows it mounted. -/
def handle_ipc_event (env : Env) (msg : String) (reg : Registry) :
    Registry × List Act :=
  if msg.data.head? = some 'R' then
    match device_search reg (String.mk (strip_trailing_slash msg).data.tail) with
    | some d =>
      if device_is_mounted env.mtab d.udev then
        match device_unmount env d.udev reg with
        | (_, reg2, acts) => (reg2, acts)
      else (reg, [])
    | none => (reg, [])
  else (reg, [])

/-- One pass of check_registered_devices (ldm.c:586-597) over the given slot
indices, reading the registry as mutated so far, exactly as the C loop reads
`g_devices[j]` live. -/
def crd_go (env : Env) : List Nat → Registry → Registry × List Act
  | [], reg => (reg, [])
  | j :: rest, reg =>
    match reg.get? j with
    | some (some d) =>
      if device_is_mounted env.mtab d.udev then crd_go env rest reg
      else
        match device_unmount env d.udev reg with
        | (_, reg2, acts) =>
          match crd_go env rest reg2 with
          | (reg3, acts2) => (reg3, acts ++ acts2)
    | _ => crd_go env rest reg

/-- check_registered_devices (ldm.c:586-597): unmount every registered
record the live table no longer shows mounted. -/
def check_registered_devices (env : Env) (reg : Registry) : Registry × List Act :=
  crd_go env (List.range MAX_DEVICES) reg

/-- The device paths of the live records of a registry, in slot order. -/
def regNames : Registry → List String
  | [] => []
  | none :: rest => regNames rest
  | some d :: rest => d.devnode :: regNames rest

/-- The uniqueness invariant of the spec: no two live records share a
device path. -/
def regNodup (reg : Registry) : Prop :=
  (regNames reg).Nodup

instance (reg : Registry) : Decidable (regNodup reg) := by
  unfold regNodup; infer_instance

/-- One dispatch of the daemon's event loop, as a relation on registry
states: a hotplug add (mount), remove (unmount) or change event, an mtab
reconciliation pass, or an out-of-band command, each under an arbitrary
environment (table snapshots and operation outcomes). -/
inductive Step : Registry → Registry → Prop where
  | mount (env : Env) (dev : UdevDevice) (reg : Registry) :
      Step reg (device_mount env dev reg).2.1
  | unmountS (env : Env) (dev : UdevDevice) (reg : Registry) :
      Step reg (device_unmount env dev reg).2.1
  | change (env : Env) (dev : UdevDevice) (reg : Registry) :
      Step reg (device_change env dev reg).2.1
  | reconcile (env : Env) (reg : Registry) :
      Step reg (check_registered_devices env reg).1
  | ipc (env : Env) (msg : String) (reg : Registry) :
      Step reg (handle_ipc_event env msg reg).1

/-- The registry states reachable from the cleared array the daemon starts
from (device_list_clear, ldm.c:821). -/
def Reachable (reg : Registry) : Prop :=
  Relation.ReflTransGen Step (List.replicate MAX_DEVICES none) reg

/-! ### Registry helper lemmas -/

/-- The first-free-slot insertion fails exactly when every slot is taken. -/
theorem insertFirstFree_none_iff (reg : Registry) (d : Device) :
    insertFirstFree reg d = none ↔ reg.all Option.isSome = true := by
  induction reg with
  | nil => simp [insertFirstFree]
  | cons o rest ih =>
    cases o with
    | none => simp [insertFirstFree]
    | some x => simp [insertFirstFree, ih]

/-- Membership in the device paths after a first-free-slot insertion. -/
theorem insert_mem_names (reg reg2 : Registry) (d : Device)
    (h : insertFirstFree reg d = some reg2) (a : String) :
    a ∈ regNames reg2 ↔ a = d.devnode ∨ a ∈ regNames reg := by
  induction reg generalizing reg2 with
  | nil => simp [insertFirstFree] at h
  | cons o rest ih =>
    cases o with
    | none =>
      simp only [insertFirstFree, Option.some.injEq] at h
      subst h
      simp [regNames]
    | some x =>
      simp only [insertFirstFree, Option.map_eq_some'] at h
      obtain ⟨rest2, hr, hreg2⟩ := h
      subst hreg2
      simp [regNames, ih rest2 hr]
      tauto

/-- Clearing a slot only removes device paths. -/
theorem names_set_none_sublist (reg : Registry) (j : Nat) :
    List.Sublist (regNames (reg.set j none)) (regNames reg) := by
  induction reg generalizing j with
  | nil => simp
  | cons o rest ih =>
    cases j with
    | zero =>
      cases o with
      | none => simp [regNames]
      | some x =>
        simp only [List.set, regNames]
        exact List.sublist_cons_self x.devnode (regNames rest)
    | succ j =>
      cases o with
      | none => simpa [regNames] using ih j
      | some x => simpa [regNames] using (ih j).cons₂ x.devnode

/-- Clearing a slot preserves device-path uniqueness. -/
theorem regNodup_set_none (reg : Registry) (j : Nat) (h : regNodup reg) :
    regNodup (reg.set j none) :=
  (h.sublist (names_set_none_sublist reg j))

/-- Inserting a record with a fresh device path preserves uniqueness. -/
theorem insert_nodup (reg reg2 : Registry) (d : Device)
    (h1 : regNodup reg) (h2 : d.devnode ∉ regNames reg)
    (h : insertFirstFree reg d = some reg2) : regNodup reg2 := by
  induction reg generalizing reg2 with
  | nil => simp [insertFirstFree] at h
  | cons o rest ih =>
    cases o with
    | none =>
      simp only [insertFirstFree, Option.some.injEq] at h
      subst h
      simp only [regNodup, regNames] at h2 h1 ⊢
      exact List.Nodup.cons h2 h1
    | some x =>
      simp only [insertFirstFree, Option.map_eq_some'] at h
      obtain ⟨rest2, hr, hreg2⟩ := h
      subst hreg2
      simp only [regNodup, regNames, List.nodup_cons] at h1 ⊢
      simp only [regNames, List.mem_cons, not_or] at h2
      refine ⟨fun hx => ?_, ih rest2 h1.2 h2.2 hr⟩
      rcases (insert_mem_names rest rest2 d hr x.devnode).mp hx with h | h
      · exact h2.1 h.symm
      · exact h1.1 h

/-- If no slot matches the key, insertion makes the new record the unique
match, and clearing that slot restores the original registry. -/
theorem insert_dsearch (reg reg2 : Registry) (d : Device) (p : String)
    (hs : dsearch reg p = none) (h : insertFirstFree reg d = some reg2)
    (hd : d.devnode = p ∨ d.mountpoint = p) :
    ∃ j, dsearch reg2 p = some (j, d) ∧ reg2.set j none = reg := by
  induction reg generalizing reg2 with
  | nil => simp [insertFirstFree] at h
  | cons o rest ih =>
    cases o with
    | none =>
      simp only [insertFirstFree, Option.some.injEq] at h
      subst h
      refine ⟨0, ?_, rfl⟩
      simp [dsearch, hd]
    | some x =>
      simp only [insertFirstFree, Option.map_eq_some'] at h
      obtain ⟨rest2, hr, hreg2⟩ := h
      subst hreg2
      simp only [dsearch] at hs
      by_cases hx : x.devnode = p ∨ x.mountpoint = p
      · simp [hx] at hs
      · simp only [hx, if_false, Option.map_eq_none'] at hs
        obtain ⟨j, hj, hset⟩ := ih rest2 hs hr
        refine ⟨j + 1, ?_, ?_⟩
        · simp [dsearch, hx, hj]
        · simp [List.set, hset]

/-- Successful registration means the record went into the first free slot. -/
theorem device_register_true (reg : Registry) (d : Device) (reg2 : Registry)
    (h : device_register reg d = (true, reg2)) : insertFirstFree reg d = some reg2 := by
  unfold device_register at h
  split at h
  · next hins => cases h; exact hins
  · simp at h

/-- device_new either rejects, leaving the registry untouched, or registers a
record carrying the event device's /dev node into the first free slot. -/
theorem device_new_cases (env : Env) (dev : UdevDevice) (reg : Registry) :
    device_new env dev reg = (none, reg) ∨
    ∃ d reg2, device_new env dev reg = (some d, reg2) ∧
      insertFirstFree reg d = some reg2 ∧ d.devnode = dev.devnode := by
  unfold device_new
  repeat' split
  all_goals first
    | exact Or.inl rfl
    | (refine Or.inr ⟨_, _, rfl, device_register_true _ _ _ ?_, rfl⟩
       assumption)

/-- device_unmount leaves the registry unchanged or clears one slot. -/
theorem device_unmount_reg_cases (env : Env) (dev : UdevDevice) (reg : Registry) :
    (device_unmount env dev reg).2.1 = reg ∨
    ∃ j, (device_unmount env dev reg).2.1 = reg.set j none := by
  unfold device_unmount
  split
  · exact Or.inl rfl
  · next j d heq =>
    split
    · split
      · exact Or.inr ⟨j, rfl⟩
      · exact Or.inl rfl
    · exact Or.inr ⟨j, rfl⟩

/-- device_unmount only removes device paths from the registry. -/
theorem device_unmount_names_sublist (env : Env) (dev : UdevDevice) (reg : Registry) :
    List.Sublist (regNames (device_unmount env dev reg).2.1) (regNames reg) := by
  rcases device_unmount_reg_cases env dev reg with h | ⟨j, h⟩
  · rw [h]
  · rw [h]; exact names_set_none_sublist reg j

/-- device_unmount preserves device-path uniqueness. -/
theorem device_unmount_nodup (env : Env) (dev : UdevDevice) (reg : Registry)
    (h : regNodup reg) : regNodup (device_unmount env dev reg).2.1 :=
  h.sublist (device_unmount_names_sublist env dev reg)

/-- A device path absent before device_unmount is absent after it. -/
theorem device_unmount_not_mem (env : Env) (dev : UdevDevice) (reg : Registry)
    (a : String) (h : a ∉ regNames reg) :
    a ∉ regNames (device_unmount env dev reg).2.1 :=
  fun hx => h ((device_unmount_names_sublist env dev reg).subset hx)

/-- device_new preserves uniqueness when the event device's path is fresh. -/
theorem device_new_nodup (env : Env) (dev : UdevDevice) (reg : Registry)
    (h1 : regNodup reg) (h2 : dev.devnode ∉ regNames reg) :
    regNodup (device_new env dev reg).2 := by
  rcases device_new_cases env dev reg with h | ⟨d, reg2, heq, hins, hdn⟩
  · rw [h]; exact h1
  · rw [heq]
    exact insert_nodup reg reg2 d h1 (by rw [hdn]; exact h2) hins

/-- device_mount preserves uniqueness when the event device's path is fresh. -/
theorem device_mount_nodup (env : Env) (dev : UdevDevice) (reg : Registry)
    (h1 : regNodup reg) (h2 : dev.devnode ∉ regNames reg) :
    regNodup (device_mount env dev reg).2.1 := by
  have hn := device_new_nodup env dev reg h1 h2
  unfold device_mount
  rcases hdn : device_new env dev reg with ⟨od, reg2⟩
  rw [hdn] at hn
  cases od with
  | none => exact hn
  | some d =>
    dsimp only at hn ⊢
    have hu : regNodup (device_unmount env dev reg2).2.1 :=
      device_unmount_nodup env dev reg2 hn
    split
    · rcases hx : device_unmount env dev reg2 with ⟨ok3, reg3, acts3⟩
      rw [hx] at hu
      exact hu
    · split
      · split
        · rcases hx : device_unmount env dev reg2 with ⟨ok3, reg3, acts3⟩
          rw [hx] at hu
          exact hu
        · exact hn
      · exact hn

/-- device_change preserves uniqueness when the event device's path is fresh. -/
theorem device_change_nodup (env : Env) (dev : UdevDevice) (reg : Registry)
    (h1 : regNodup reg) (h2 : dev.devnode ∉ regNames reg) :
    regNodup (device_change env dev reg).2.1 := by
  unfold device_change
  split
  · split
    · rcases hu : device_unmount env dev reg with ⟨ok, reg2, acts⟩
      dsimp only
      have hn2 : regNodup reg2 := by
        have := device_unmount_nodup env dev reg h1
        rw [hu] at this; exact this
      have h2b : dev.devnode ∉ regNames reg2 := by
        have := device_unmount_not_mem env dev reg dev.devnode h2
        rw [hu] at this; exact this
      split
      · exact hn2
      · rcases hm : device_mount env dev reg2 with ⟨ok2, reg3, acts2⟩
        dsimp only
        have := device_mount_nodup env dev reg2 hn2 h2b
        rw [hm] at this; exact this
    · exact device_mount_nodup env dev reg h1 h2
  · exact device_mount_nodup env dev reg h1 h2

/-- The reconciliation pass preserves uniqueness. -/
theorem crd_go_nodup (env : Env) (js : List Nat) (reg : Registry)
    (h : regNodup reg) : regNodup (crd_go env js reg).1 := by
  induction js generalizing reg with
  | nil => exact h
  | cons j rest ih =>
    unfold crd_go
    split
    · next d _ =>
      split
      · exact ih reg h
      · rcases hu : device_unmount env d.udev reg with ⟨ok, reg2, acts⟩
        dsimp only
        have hn2 : regNodup reg2 := by
          have := device_unmount_nodup env d.udev reg h
          rw [hu] at this; exact this
        rcases hc : crd_go env rest reg2 with ⟨reg3, acts2⟩
        dsimp only
        have := ih reg2 hn2
        rw [hc] at this; exact this
    · exact ih reg h

/-- The out-of-band command handler preserves uniqueness. -/
theorem handle_ipc_nodup (env : Env) (msg : String) (reg : Registry)
    (h : regNodup reg) : regNodup (handle_ipc_event env msg reg).1 := by
  unfold handle_ipc_event
  split
  · split
    · next d _ =>
      split
      · rcases hu : device_unmount env d.udev reg with ⟨ok, reg2, acts⟩
        dsimp only
        have := device_unmount_nodup env d.udev reg h
        rw [hu] at this; exact this
      · exact h
    · exact h
  · exact h

/-! ### Claim C2: device-path uniqueness across the registry -/

/-- A partition carrying an ext4 filesystem with a label, as delivered by a
hotplug add event. -/
def addDev : UdevDevice :=
  ⟨"/dev/sdb1", [], "partition", none, some "ext4", none, some "data", none, true, false⟩

/-- An environment with empty table snapshots in which every external
operation succeeds and no mountpoint path exists yet. -/
def okEnv : Env :=
  ⟨[], [], (fun _ => false), true, true, true, 1000, 1000⟩

/-- The cleared registry the daemon starts from. -/
def reg0 : Registry := List.replicate MAX_DEVICES none

/-- The registry after two add events for the same device path. -/
def dupReg : Registry :=
  (device_mount okEnv addDev (device_mount okEnv addDev reg0).2.1).2.1

/-- C2 counterexample: a registry holding two records with the same device
path "/dev/sdb1" is reachable from the cleared registry by two add (mount)
dispatches for the same device — device_register performs no duplicate
check, so the invariant claimed for every reachable state fails. -/
theorem registry_duplicate_reachable_cex :
    Reachable dupReg ∧ regNames dupReg = ["/dev/sdb1", "/dev/sdb1"] ∧ ¬ regNodup dupReg := by
  refine ⟨?_, by decide, by decide⟩
  exact Relation.ReflTransGen.tail
    (Relation.ReflTransGen.single (Step.mount okEnv addDev reg0))
    (Step.mount okEnv addDev (device_mount okEnv addDev reg0).2.1)

/-- C2 (amended): unmount, reconcile and the remove command always preserve
device-path uniqueness; create (device_new), mount and change preserve it
whenever no live record already holds the event device's path.  (An add
event for an already-registered device path can violate it, as the
counterexample shows.) -/
theorem registry_uniqueness_preservation :
    ∀ reg : Registry, regNodup reg →
      (∀ env dev, regNodup (device_unmount env dev reg).2.1) ∧
      (∀ env, regNodup (check_registered_devices env reg).1) ∧
      (∀ env msg, regNodup (handle_ipc_event env msg reg).1) ∧
      (∀ env dev, dev.devnode ∉ regNames reg → regNodup (device_new env dev reg).2) ∧
      (∀ env dev, dev.devnode ∉ regNames reg → regNodup (device_mount env dev reg).2.1) ∧
      (∀ env dev, dev.devnode ∉ regNames reg → regNodup (device_change env dev reg).2.1) := by
  intro reg h
  exact ⟨fun env dev => device_unmount_nodup env dev reg h,
         fun env => crd_go_nodup env (List.range MAX_DEVICES) reg h,
         fun env msg => handle_ipc_nodup env msg reg h,
         fun env dev h2 => device_new_nodup env dev reg h h2,
         fun env dev h2 => device_mount_nodup env dev reg h h2,
         fun env dev h2 => device_change_nodup env dev reg h h2⟩

/-- Witness: mounting a fresh device path into the empty registry keeps the
device paths unique. -/
theorem registry_uniqueness_preservation_witness :
    regNodup (device_mount okEnv addDev reg0).2.1 :=
  (registry_uniqueness_preservation reg0 (by decide)).2.2.2.2.1 okEnv addDev (by decide)

/-! ### Claim C1: register/find behaviour of the registry -/

/-- A udev record for a plain ext4 partition at /dev/sda. -/
def sdaUdev : UdevDevice :=
  ⟨"/dev/sda", [], "partition", none, some "ext4", none, none, none, true, false⟩

/-- A registered record for /dev/sda mounted at /mnt/a. -/
def sdaDevA : Device := ⟨DType.volume, "ext4", "/dev/sda", "/mnt/a", sdaUdev⟩

/-- A second record with the same device path /dev/sda. -/
def sdaDevB : Device := ⟨DType.volume, "ext4", "/dev/sda", "/mnt/b", sdaUdev⟩

/-- A registry holding the /dev/sda record and nineteen free slots. -/
def sdaReg : Registry := some sdaDevA :: List.replicate 19 none

/-- C1 counterexample: device_register performs no duplicate-device-path
check — with a record for /dev/sda already live and free slots available,
registering a second record with the same device path succeeds, where the
claim requires it to return false. -/
theorem device_register_duplicate_cex :
    sdaDevB.devnode = sdaDevA.devnode ∧
    device_search sdaReg sdaDevB.devnode = some sdaDevA ∧
    (device_register sdaReg sdaDevB).1 = true := by decide

/-- C1 (amended): device_register fails, with no mutation, exactly when all
N = 20 slots are occupied; otherwise it succeeds — even if a record with the
same device path is already present — and find on the new record's device
path returns that record provided no already-present record matches that
path as its device path or mountpoint. -/
theorem device_register_capacity_find :
    ∀ (reg : Registry) (d : Device),
      (reg.all Option.isSome = true → device_register reg d = (false, reg)) ∧
      (reg.all Option.isSome = false →
        (device_register reg d).1 = true ∧
        (device_search reg d.devnode = none →
          device_search (device_register reg d).2 d.devnode = some d)) := by
  intro reg d
  constructor
  · intro hfull
    unfold device_register
    rw [(insertFirstFree_none_iff reg d).mpr hfull]
  · intro hnotfull
    obtain ⟨reg2, hins⟩ : ∃ reg2, insertFirstFree reg d = some reg2 := by
      rcases h : insertFirstFree reg d with _ | reg2
      · rw [(insertFirstFree_none_iff reg d).mp h] at hnotfull; cases hnotfull
      · exact ⟨reg2, rfl⟩
    refine ⟨by unfold device_register; rw [hins], fun hs => ?_⟩
    have hds : dsearch reg d.devnode = none := Option.map_eq_none'.mp hs
    obtain ⟨j, hj, _⟩ := insert_dsearch reg reg2 d d.devnode hds hins (Or.inl rfl)
    unfold device_register device_search
    rw [hins]
    dsimp only
    rw [hj]
    rfl

/-- Witness: registering a fresh /dev/sda record in the empty registry
succeeds and find on /dev/sda returns it. -/
theorem device_register_capacity_find_witness :
    (device_register reg0 sdaDevA).1 = true ∧
    device_search (device_register reg0 sdaDevA).2 "/dev/sda" = some sdaDevA :=
  ⟨((device_register_capacity_find reg0 sdaDevA).2 (by decide)).1,
   ((device_register_capacity_find reg0 sdaDevA).2 (by decide)).2 (by decide)⟩

/-! ### Claim C3: resolver first-match order -/

/-- A table holding only a LABEL= entry. -/
def labTab : List MntFS := [⟨"LABEL=backup", "/mnt/backup", []⟩]

/-- A device with a known label but no known filesystem UUID. -/
def labDev : UdevDevice :=
  ⟨"/dev/sdc2", [], "partition", none, some "ext4", none, some "backup", none, true, false⟩

/-- C3 counterexample: for a device with no known UUID but a known label,
whose device path matches nothing, the resolver returns no match even
though an entry with source LABEL=backup exists — the source returns NULL
as soon as ID_FS_UUID is missing (ldm.c:184-185), never reaching the label
step. -/
theorem fstab_search_label_skipped_cex :
    labDev.fsUuid = none ∧ labDev.fsLabel = some "backup" ∧
    mnt_table_find_source labTab "LABEL=backup" = some ⟨"LABEL=backup", "/mnt/backup", []⟩ ∧
    fstab_search_path labTab labDev = none ∧
    fstab_search labTab labDev = none := by decide

/-- C3 (amended): the resolver tries the device path (or, for a
device-mapper node, the symlink aliases) first, then UUID=<uuid>, then
LABEL=<label> — but the label step is reached only when a UUID is known and
its entry is absent; when no UUID is known the resolver reports no match
immediately, even if a label is known. -/
theorem fstab_search_order :
    ∀ (tab : List MntFS) (u : UdevDevice),
      (∀ r, fstab_search_path tab u = some r → fstab_search tab u = some r) ∧
      (fstab_search_path tab u = none → u.fsUuid = none → fstab_search tab u = none) ∧
      (∀ uu r, fstab_search_path tab u = none → u.fsUuid = some uu →
        mnt_table_find_source tab ("UUID=" ++ uu) = some r → fstab_search tab u = some r) ∧
      (∀ uu lab, fstab_search_path tab u = none → u.fsUuid = some uu →
        mnt_table_find_source tab ("UUID=" ++ uu) = none → u.fsLabel = some lab →
        fstab_search tab u = mnt_table_find_source tab ("LABEL=" ++ lab)) ∧
      (∀ uu, fstab_search_path tab u = none → u.fsUuid = some uu →
        mnt_table_find_source tab ("UUID=" ++ uu) = none → u.fsLabel = none →
        fstab_search tab u = none) := by
  intro tab u
  refine ⟨?_, ?_, ?_, ?_, ?_⟩ <;> (intros; unfold fstab_search; simp_all)

/-- A table holding only a LABEL= entry for /mnt/media. -/
def uuTab : List MntFS := [⟨"LABEL=media", "/mnt/media", []⟩]

/-- A device with both a UUID (unmatched in the table) and a label. -/
def uuDev : UdevDevice :=
  ⟨"/dev/sdc3", [], "partition", none, some "ext4", some "1234-ABCD", some "media", none, true, false⟩

/-- Witness: with a known but unmatched UUID, resolution falls through to
the LABEL= lookup. -/
theorem fstab_search_order_witness :
    fstab_search uuTab uuDev = mnt_table_find_source uuTab "LABEL=media" :=
  (fstab_search_order uuTab uuDev).2.2.2.1 "1234-ABCD" "media"
    (by decide) (by decide) (by decide) (by decide)

/-! ### Claim C4: all-or-nothing creation -/

/-- C4: whenever device_new rejects (returns no record), the registry is
returned exactly as it was — no half-initialized record is retained. -/
theorem device_new_all_or_nothing :
    ∀ (env : Env) (dev : UdevDevice) (reg : Registry),
      (device_new env dev reg).1 = none → (device_new env dev reg).2 = reg := by
  intro env dev reg h
  rcases device_new_cases env dev reg with h1 | ⟨d, reg2, h1, _, _⟩
  · rw [h1]
  · rw [h1] at h; cases h

/-- A swap partition, rejected by the filesystem blacklist. -/
def swapDev : UdevDevice :=
  ⟨"/dev/sdc1", [], "partition", none, some "swap", none, none, none, true, false⟩

/-- Witness: the rejected swap partition leaves the registry untouched. -/
theorem device_new_all_or_nothing_witness :
    (device_new okEnv swapDev reg0).2 = reg0 :=
  device_new_all_or_nothing okEnv swapDev reg0 (by decide)

/-! ### Claim C9: unconditional filesystem-type rejection -/

/-- C9: an absent filesystem type, or swap / LVM2_member / crypto_LUKS, is
rejected by device_new for every environment — in particular for every
fstab snapshot content. -/
theorem device_new_rejects_fs_types :
    ∀ (env : Env) (dev : UdevDevice) (reg : Registry),
      dev.fsType = none ∨ dev.fsType = some "swap" ∨ dev.fsType = some "LVM2_member" ∨
        dev.fsType = some "crypto_LUKS" →
      device_new env dev reg = (none, reg) := by
  intro env dev reg h
  unfold device_new
  split
  · rfl
  · rcases h with h | h | h | h <;> rw [h] <;> simp

/-- An fstab snapshot naming the swap partition's device path. -/
def swapEnv : Env :=
  ⟨[⟨"/dev/sdc1", "/mnt/c", []⟩], [], (fun _ => false), true, true, true, 1000, 1000⟩

/-- Witness: the swap partition is rejected even though the fstab snapshot
names its device path. -/
theorem device_new_rejects_fs_types_witness :
    device_new swapEnv swapDev reg0 = (none, reg0) :=
  device_new_rejects_fs_types swapEnv swapDev reg0 (by decide)

/-! ### Claim C5: unmount executor invocation and its target -/

/-- The targets of the Mount Executor unmount calls in a trace. -/
def umountTargets (acts : List Act) : List Act :=
  acts.filter (fun a => match a with | Act.umountExec _ => true | _ => false)

/-- C5 (amended): for a registered device, the executor's unmount is invoked
if and only if the live table resolves the device — but its target is the
record's device path (ldm.c:528), not the record's mountpoint; for an
unregistered device nothing is invoked. -/
theorem device_unmount_exec_iff_mounted :
    ∀ (env : Env) (dev : UdevDevice) (reg : Registry),
      (dsearch reg dev.devnode = none → (device_unmount env dev reg).2.2 = []) ∧
      (∀ j d, dsearch reg dev.devnode = some (j, d) →
        umountTargets (device_unmount env dev reg).2.2 =
          if device_is_mounted env.mtab dev then [Act.umountExec d.devnode] else []) := by
  intro env dev reg
  constructor
  · intro h
    unfold device_unmount
    rw [h]
  · intro j d h
    unfold device_unmount
    rw [h]
    dsimp only
    cases hm : device_is_mounted env.mtab dev
    · simp [hm, umountTargets]
    · cases hu : env.umountResult <;> simp [hm, hu, umountTargets]

/-- The registered record for the /dev/sdb1 partition, mounted at /mnt/data. -/
def sdbDev : Device := ⟨DType.volume, "ext4", "/dev/sdb1", "/mnt/data", addDev⟩

/-- A registry holding the /dev/sdb1 record. -/
def sdbReg : Registry := some sdbDev :: List.replicate 19 none

/-- A live table snapshot showing /dev/sdb1 mounted; every operation
succeeds. -/
def sdbEnv : Env :=
  ⟨[], [⟨"/dev/sdb1", "/mnt/data", []⟩], (fun _ => false), true, true, true, 1000, 1000⟩

/-- C5 counterexample: the device is registered and the live table shows it
mounted, yet the executor's unmount is invoked with target "/dev/sdb1" (the
device path) and never with the record's mountpoint "/mnt/data" as the
claim requires. -/
theorem device_unmount_target_cex :
    device_is_mounted sdbEnv.mtab addDev = true ∧
    device_search sdbReg addDev.devnode = some sdbDev ∧
    sdbDev.mountpoint = "/mnt/data" ∧
    Act.umountExec "/mnt/data" ∉ (device_unmount sdbEnv addDev sdbReg).2.2 ∧
    umountTargets (device_unmount sdbEnv addDev sdbReg).2.2 = [Act.umountExec "/dev/sdb1"] := by
  decide

/-- Witness: on the registered, live-mounted /dev/sdb1 the executor is
invoked once, with the device path as target. -/
theorem device_unmount_exec_iff_mounted_witness :
    umountTargets (device_unmount sdbEnv addDev sdbReg).2.2 =
      if device_is_mounted sdbEnv.mtab addDev then [Act.umountExec "/dev/sdb1"] else [] :=
  (device_unmount_exec_iff_mounted sdbEnv addDev sdbReg).2 0 sdbDev (by decide)

/-! ### Claim C6: executor unmount failure aborts the flow -/

/-- C6: when the record is registered, the live table shows the device
mounted and the executor's unmount fails, device_unmount reports failure
with the registry unchanged and the only effect is the failed executor
call — no rmdir, no unmount hook, no record destruction. -/
theorem device_unmount_exec_failure :
    ∀ (env : Env) (dev : UdevDevice) (reg : Registry) (j : Nat) (d : Device),
      dsearch reg dev.devnode = some (j, d) →
      device_is_mounted env.mtab dev = true →
      env.umountResult = false →
      device_unmount env dev reg = (false, reg, [Act.umountExec d.devnode]) := by
  intro env dev reg j d h hm hu
  unfold device_unmount
  rw [h]
  dsimp only
  simp [hm, hu]

/-- A live table showing /dev/sdb1 mounted, with a failing unmount executor. -/
def sdbFailEnv : Env :=
  ⟨[], [⟨"/dev/sdb1", "/mnt/data", []⟩], (fun _ => false), true, false, true, 1000, 1000⟩

/-- Witness: the failing unmount aborts, keeping the /dev/sdb1 record. -/
theorem device_unmount_exec_failure_witness :
    device_unmount sdbFailEnv addDev sdbReg = (false, sdbReg, [Act.umountExec "/dev/sdb1"]) :=
  device_unmount_exec_failure sdbFailEnv addDev sdbReg 0 sdbDev (by decide) (by decide) (by decide)

/-! ### Claim C7: the out-of-band remove command -/

/-- C7 (amended): for an R command, the trailing '/' is stripped and the
remainder after the command byte is looked up by device path or mountpoint;
a match is unmounted only when the live table also shows it mounted — a
registered match the live table does not show mounted is, like no match, a
silent no-op. -/
theorem handle_ipc_remove :
    ∀ (env : Env) (msg : String) (reg : Registry),
      msg.data.head? = some 'R' →
      ((device_search reg (String.mk (strip_trailing_slash msg).data.tail) = none →
          handle_ipc_event env msg reg = (reg, [])) ∧
       (∀ d, device_search reg (String.mk (strip_trailing_slash msg).data.tail) = some d →
          device_is_mounted env.mtab d.udev = false →
          handle_ipc_event env msg reg = (reg, [])) ∧
       (∀ d, device_search reg (String.mk (strip_trailing_slash msg).data.tail) = some d →
          device_is_mounted env.mtab d.udev = true →
          handle_ipc_event env msg reg =
            ((device_unmount env d.udev reg).2.1, (device_unmount env d.udev reg).2.2))) := by
  intro env msg reg hR
  unfold handle_ipc_event
  rw [if_pos hR]
  refine ⟨fun h => by rw [h], fun d h hm => by rw [h]; dsimp only; simp [hm], ?_⟩
  intro d h hm
  rw [h]
  dsimp only
  rw [if_pos hm]

/-- The udev record behind the registered "My Disk" volume. -/
def diskUdev : UdevDevice :=
  ⟨"/dev/sdd1", [], "partition", none, some "ext4", none, some "My Disk", none, true, false⟩

/-- The registered record for /dev/sdd1, mounted at /mnt/My_Disk. -/
def diskDev : Device := ⟨DType.volume, "ext4", "/dev/sdd1", "/mnt/My_Disk", diskUdev⟩

/-- A registry holding the /mnt/My_Disk record. -/
def diskReg : Registry := some diskDev :: List.replicate 19 none

/-- C7 counterexample: "R/mnt/My_Disk/" matches the registered record by
mountpoint, but because the (empty) live table does not show the device
mounted the command is a no-op — the matching registered device is not
unmounted and its record survives, where the claim says a match is
unmounted. -/
theorem handle_ipc_not_mounted_cex :
    device_search diskReg "/mnt/My_Disk" = some diskDev ∧
    handle_ipc_event okEnv "R/mnt/My_Disk/" diskReg = (diskReg, []) ∧
    device_search (handle_ipc_event okEnv "R/mnt/My_Disk/" diskReg).1 "/mnt/My_Disk" =
      some diskDev := by decide

/-- A live table showing /dev/sdd1 mounted at /mnt/My_Disk. -/
def diskEnvM : Env :=
  ⟨[], [⟨"/dev/sdd1", "/mnt/My_Disk", []⟩], (fun _ => false), true, true, true, 1000, 1000⟩

/-- Witness: with the device shown mounted, the R command runs the unmount
flow on the matched record. -/
theorem handle_ipc_remove_witness :
    handle_ipc_event diskEnvM "R/mnt/My_Disk/" diskReg =
      ((device_unmount diskEnvM diskUdev diskReg).2.1,
       (device_unmount diskEnvM diskUdev diskReg).2.2) :=
  (handle_ipc_remove diskEnvM "R/mnt/My_Disk/" diskReg (by decide)).2.2 diskDev
    (by decide) (by decide)

/-! ### Claim C8: the mountpoint namer -/

/-- Appending one underscore adds one character. -/
theorem strLen_append_one (tmp : String) : (tmp ++ "_").length = tmp.length + 1 := by
  rw [String.length_append]
  rfl

/-- sanitize distributes over string append. -/
theorem sanitize_append (a b : String) : sanitize (a ++ b) = sanitize a ++ sanitize b := by
  cases a with
  | mk da =>
    cases b with
    | mk db =>
      show sanitize ⟨da ++ db⟩ = String.mk ((sanitize ⟨da⟩).data ++ (sanitize ⟨db⟩).data)
      simp [sanitize, List.map_append]

/-- sanitize preserves the length. -/
theorem sanitize_length (s : String) : (sanitize s).length = s.length := by
  cases s with
  | mk data => simp [sanitize, String.length]

/-- Truncation is the identity within the buffer bound. -/
theorem trunc_of_le (s : String) (n : Nat) (h : s.length ≤ n) : trunc s n = s := by
  cases s with
  | mk data => exact congrArg String.mk (List.take_of_length_le h)

/-- With an always-false existence oracle the collision loop returns its
candidate immediately. -/
theorem mpLoop_false (fuel : Nat) (tmp : String) (h : 0 < fuel) :
    mpLoop (fun _ => false) fuel tmp = some tmp := by
  cases fuel with
  | zero => exact absurd h (Nat.lt_irrefl 0)
  | succ f => simp [mpLoop]

/-- The collision loop as §4.4 of the spec words it, counting the remaining
room up to the maximum length: a free candidate is returned, a colliding
one is retried with one more underscore, and the retry budget running out
(the path would exceed the fixed maximum length) is a failure. -/
def nlGo (ex : String → Bool) : Nat → String → Option String
  | 0, tmp => if ex tmp then none else some tmp
  | rem + 1, tmp => if ex tmp then nlGo ex rem (tmp ++ "_") else some tmp

/-- The Mountpoint Namer as §4.4 of the spec words it: the first present of
label, UUID, serial is the name (none present fails), the candidate is the
base directory plus the sanitized name (every space replaced by an
underscore), and collisions append underscores until a free name is found
or the fixed maximum length would be exceeded.  This is the comparison
definition for the refinement theorem below, written from the spec's words
rather than from the source. -/
def namer_spec (ex : String → Bool) (u : UdevDevice) : Option String :=
  match namer_choice u with
  | none => none
  | some name =>
    if (MOUNT_PATH ++ sanitize name).length ≤ PATH_MAX - 2 then
      nlGo ex (PATH_MAX - 2 - (MOUNT_PATH ++ sanitize name).length)
        (MOUNT_PATH ++ sanitize name)
    else none

/-- The source's fuelled collision loop agrees with the spec's
remaining-room loop whenever the candidate fits the buffer. -/
theorem mpLoop_eq_nlGo (ex : String → Bool) :
    ∀ (rem fuel : Nat) (tmp : String), tmp.length + rem = PATH_MAX - 2 → rem < fuel →
      mpLoop ex fuel tmp = nlGo ex rem tmp := by
  intro rem
  induction rem with
  | zero =>
    intro fuel tmp hlen hf
    cases fuel with
    | zero => exact absurd hf (Nat.lt_irrefl 0)
    | succ f =>
      unfold mpLoop nlGo
      cases hex : ex tmp
      · simp [hex]
      · have hl : tmp.length = PATH_MAX - 2 := by omega
        simp [hex, hl]
  | succ r ih =>
    intro fuel tmp hlen hf
    cases fuel with
    | zero => exact absurd hf (Nat.not_lt_zero _)
    | succ f =>
      unfold mpLoop nlGo
      cases hex : ex tmp
      · simp [hex]
      · have hne : ¬ (tmp.length = PATH_MAX - 2) := by omega
        simp only [hex, if_true, if_neg hne, Bool.true_eq_false, if_false]
        have hlen2 : (tmp ++ "_").length + r = PATH_MAX - 2 := by
          rw [strLen_append_one]; omega
        exact ih f (tmp ++ "_") hlen2 (by omega)

/-- The "My Disk" volume of the spec's namer example. -/
def nDev : UdevDevice :=
  ⟨"/dev/sde1", [], "partition", none, some "vfat", none, some "My Disk", none, true, false⟩

/-- An existence oracle on which only /mnt/My_Disk is taken. -/
def exOracle1 : String → Bool := fun s => decide (s = "/mnt/My_Disk")

/-- An existence oracle on which /mnt/My_Disk and /mnt/My_Disk_ are taken. -/
def exOracle2 : String → Bool :=
  fun s => decide (s = "/mnt/My_Disk" ∨ s = "/mnt/My_Disk_")

/-- C8 (amended): the namer follows the spec's algorithm — label before
UUID before serial, spaces replaced by underscores, underscores appended
under collisions, failure when nothing names the device or when a colliding
candidate has already reached the maximum storable length — whenever the
initial candidate fits the buffer (length at most PATH_MAX - 2); the spec's
collision example holds verbatim.  (An over-long initial candidate is
truncated rather than rejected, as the counterexample shows.) -/
theorem device_create_mountpoint_spec :
    (∀ (ex : String → Bool) (u : UdevDevice),
      namer_choice u = none → device_create_mountpoint ex u = none) ∧
    (∀ (ex : String → Bool) (u : UdevDevice) (name : String),
      namer_choice u = some name →
      (MOUNT_PATH ++ name).length ≤ PATH_MAX - 2 →
      device_create_mountpoint ex u = namer_spec ex u) ∧
    device_create_mountpoint (fun _ => false) nDev = some "/mnt/My_Disk" ∧
    device_create_mountpoint exOracle1 nDev = some "/mnt/My_Disk_" ∧
    device_create_mountpoint exOracle2 nDev = some "/mnt/My_Disk__" := by
  refine ⟨?_, ?_, by decide, by decide, by decide⟩
  · intro ex u h
    unfold device_create_mountpoint
    rw [h]
  · intro ex u name hc hlen
    have hP : PATH_MAX = 4096 := rfl
    unfold device_create_mountpoint namer_spec
    rw [hc]
    dsimp only
    have hTr : trunc (MOUNT_PATH ++ name) (PATH_MAX - 1) = MOUNT_PATH ++ name :=
      trunc_of_le _ _ (by omega)
    have hsa : sanitize (MOUNT_PATH ++ name) = MOUNT_PATH ++ sanitize name := by
      rw [sanitize_append]
      have : sanitize MOUNT_PATH = MOUNT_PATH := by decide
      rw [this]
    have hlen2 : (MOUNT_PATH ++ sanitize name).length ≤ PATH_MAX - 2 := by
      rw [String.length_append, sanitize_length]
      rw [String.length_append] at hlen
      exact hlen
    rw [hTr, hsa, if_pos hlen2]
    exact mpLoop_eq_nlGo ex _ PATH_MAX _ (by omega) (by omega)

/-- Witness: on the "My Disk" volume over the one-collision oracle the
namer and the spec's algorithm agree. -/
theorem device_create_mountpoint_spec_witness :
    device_create_mountpoint exOracle1 nDev = namer_spec exOracle1 nDev :=
  device_create_mountpoint_spec.2.1 exOracle1 nDev "My Disk" (by decide) (by decide)

/-- A 4200-character label, far beyond the PATH_MAX = 4096 buffer. -/
def longLabel : String := String.mk (List.replicate 4200 'a')

/-- A volume carrying the over-long label. -/
def longDev : UdevDevice :=
  ⟨"/dev/sdb9", [], "partition", none, some "ext4", none, some longLabel, none, true, false⟩

/-- C8 counterexample: for this label the candidate path has 4205
characters, exceeding the fixed maximum length, so the claim requires
naming to fail — but snprintf truncates the candidate to PATH_MAX - 1
characters and, the truncated path being free, the namer returns a
(truncated) name instead of failing. -/
theorem device_create_mountpoint_overlong_cex :
    longDev.fsLabel = some longLabel ∧
    (MOUNT_PATH ++ longLabel).length = 4205 ∧
    PATH_MAX = 4096 ∧
    (device_create_mountpoint (fun _ => false) longDev).isSome = true := by
  refine ⟨rfl, ?_, rfl, ?_⟩
  · have hl : longLabel.length = 4200 := by
      show (String.mk (List.replicate 4200 'a')).length = 4200
      rw [String.length_mk, List.length_replicate]
    rw [String.length_append, hl]
    rfl
  · have h1 : namer_choice longDev = some longLabel := rfl
    unfold device_create_mountpoint
    rw [h1]
    dsimp only
    rw [mpLoop_false PATH_MAX _ (by decide)]
    rfl

/-! ### Claim C10: cleanup after a failed mount -/

/-- C10 (amended): when creation succeeds for a fresh device path and the
mount step fails (executor failure, or chown failure on a quirk-less
filesystem), device_mount reports failure and cleans up through the full
unmount flow: when the live snapshot does not show the device mounted, or
the executor's unmount succeeds, the registry is restored exactly (no
record remains), the mountpoint directory removal is attempted and the
"unmount" hook is spawned even though the mount never completed; but when
the live snapshot shows the device mounted and the executor's unmount
fails, the cleanup aborts — the fresh record stays registered and the
"unmount" hook is not spawned. -/
theorem device_mount_cleanup :
    ∀ (env : Env) (dev : UdevDevice) (reg : Registry) (d : Device) (reg2 : Registry),
      dsearch reg dev.devnode = none →
      device_new env dev reg = (some d, reg2) →
      (env.mountResult = false ∨
        ((filesystem_quirks d.filesystem).ownerFix = false ∧ env.chownResult = false)) →
      (device_mount env dev reg).1 = false ∧
      ((device_is_mounted env.mtab dev = false ∨ env.umountResult = true) →
        (device_mount env dev reg).2.1 = reg ∧
        Act.rmdirAct d.mountpoint ∈ (device_mount env dev reg).2.2 ∧
        Act.spawn "unmount" d.mountpoint ∈ (device_mount env dev reg).2.2) ∧
      (device_is_mounted env.mtab dev = true → env.umountResult = false →
        (device_mount env dev reg).2.1 = reg2 ∧
        Act.spawn "unmount" d.mountpoint ∉ (device_mount env dev reg).2.2 ∧
        device_search reg2 dev.devnode = some d) := by
  intro env dev reg d reg2 hds hnew htrig
  rcases device_new_cases env dev reg with hc | ⟨d2, reg3, heq, hins, hdn⟩
  · rw [hnew] at hc; cases hc
  · rw [hnew] at heq
    injection heq with heq1 heq2
    injection heq1 with heq1
    subst heq1
    subst heq2
    obtain ⟨j, hj, hset⟩ := insert_dsearch reg reg2 d dev.devnode hds hins (Or.inl hdn)
    have hsearch2 : device_search reg2 dev.devnode = some d := by
      unfold device_search
      rw [hj]
      rfl
    have hum : device_unmount env dev reg2 =
        if device_is_mounted env.mtab dev then
          (if env.umountResult then
            (true, reg, [Act.umountExec d.devnode, Act.rmdirAct d.mountpoint,
                         Act.spawn "unmount" d.mountpoint])
          else (false, reg2, [Act.umountExec d.devnode]))
        else (true, reg, [Act.rmdirAct d.mountpoint, Act.spawn "unmount" d.mountpoint]) := by
      unfold device_unmount
      rw [hj]
      dsimp only
      rw [hset]
    unfold device_mount
    rw [hnew]
    dsimp only
    by_cases hmr : env.mountResult = false
    · rw [if_pos hmr, hum]
      refine ⟨?_, ?_, ?_⟩
      · cases him : device_is_mounted env.mtab dev <;>
          cases hur : env.umountResult <;> simp [him, hur]
      · intro hcase
        rcases hcase with him | hur
        · simp [him]
        · cases him : device_is_mounted env.mtab dev <;> simp [him, hur]
      · intro him hur
        simp [him, hur, hsearch2]
    · rcases htrig with hmr3 | ⟨hof, hcr⟩
      · exact absurd hmr3 hmr
      · rw [if_neg hmr, if_pos hof, if_pos hcr, hum]
        refine ⟨?_, ?_, ?_⟩
        · cases him : device_is_mounted env.mtab dev <;>
            cases hur : env.umountResult <;> simp [him, hur]
        · intro hcase
          rcases hcase with him | hur
          · simp [him]
          · cases him : device_is_mounted env.mtab dev <;> simp [him, hur]
        · intro him hur
          simp [him, hur, hsearch2]

/-- The live table already shows /dev/sdb1 mounted; the executor's mount
and unmount both fail. -/
def busyEnv : Env :=
  ⟨[], [⟨"/dev/sdb1", "/mnt/ext", []⟩], (fun _ => false), false, false, true, 1000, 1000⟩

/-- C10 counterexample: creation succeeds and the mount fails, but because
the live snapshot shows the device mounted and the executor's unmount also
fails, the cleanup aborts halfway: a record for the device remains in the
registry, no mountpoint removal is attempted, and the "unmount" hook is
never spawned — contrary to the claimed postconditions. -/
theorem device_mount_cleanup_cex :
    (device_new busyEnv addDev reg0).1.isSome = true ∧
    busyEnv.mountResult = false ∧
    (device_mount busyEnv addDev reg0).1 = false ∧
    (device_search (device_mount busyEnv addDev reg0).2.1 "/dev/sdb1").isSome = true ∧
    Act.rmdirAct "/mnt/data" ∉ (device_mount busyEnv addDev reg0).2.2 ∧
    Act.spawn "unmount" "/mnt/data" ∉ (device_mount busyEnv addDev reg0).2.2 := by decide

/-- A failing mount executor over an empty live table. -/
def mFailEnv : Env :=
  ⟨[], [], (fun _ => false), false, true, true, 1000, 1000⟩

/-- The record device_new builds for addDev when no fstab entry overrides
the namer. -/
def addRec : Device := ⟨DType.volume, "ext4", "/dev/sdb1", "/mnt/data", addDev⟩

/-- The registry after registering addRec into the empty registry. -/
def addReg : Registry := some addRec :: List.replicate 19 none

/-- Witness: with the live table not showing the device, the failed mount
restores the registry exactly, attempts the mountpoint removal and spawns
the "unmount" hook. -/
theorem device_mount_cleanup_witness :
    (device_mount mFailEnv addDev reg0).1 = false ∧
    (device_mount mFailEnv addDev reg0).2.1 = reg0 ∧
    Act.rmdirAct "/mnt/data" ∈ (device_mount mFailEnv addDev reg0).2.2 ∧
    Act.spawn "unmount" "/mnt/data" ∈ (device_mount mFailEnv addDev reg0).2.2 := by
  have h := device_mount_cleanup mFailEnv addDev reg0 addRec addReg
    (by decide) (by decide) (Or.inl (by decide))
  exact ⟨h.1, (h.2.1 (Or.inl (by decide))).1, (h.2.1 (Or.inl (by decide))).2.1,
    (h.2.1 (Or.inl (by decide))).2.2⟩
